import Mathlib

/-!
Verification of the X-Tracker trip-tracking core.

The definitions below are a shallow embedding of the tracking arithmetic of
the bike-computer screen (file app/(tabs)/index.tsx): the haversine distance
function, the component state held in the React state hooks, and the state
transformers corresponding to the location callback, the timer tick and the
start/stop/pause/resume/reset handlers.  JavaScript numbers are modelled as
real numbers, a setState call as the corresponding field update, and
timestamps (Date.now and friends) as natural numbers of milliseconds passed
to each handler as an explicit parameter.

Reads are modelled after how each handler actually obtains its values.
The button handlers and the timer effect are re-created every render (the
effect lists its dependencies), so their state reads are reads of the
current component state.  Inside the long-lived subscription callback,
isPausedRef is a ref kept in sync with the paused state, and the
accumulator updates pass functional prev-updaters to setState, so those
also see current values; but the plain `lastLocation` identifier on the
distance path is a render-scoped constant captured when the subscription
was registered.  locationCallback below is the callback body with that one
read taken from the current state (the reading under which the spec
describes onSample); installedCallback is the closure the program actually
installs, with the captured value an explicit parameter.  At the one
reachable registration site (startTracking run from the mount effect, on
the initial render) the captured value is none.
-/

namespace XTracker

/-- JavaScript Math.atan2 y x: the argument of the complex number with real
part x and imaginary part y (this matches Math.atan2 on every quadrant, on
the axes, and at the origin, where both give 0). -/
noncomputable def atan2 (y x : ℝ) : ℝ := Complex.arg ⟨x, y⟩

/-- The haversine great-circle distance of app/(tabs)/index.tsx
(calculateDistance): Earth radius 6,371,000 m, angles converted from degrees
to radians. -/
noncomputable def calculateDistance (lat1 lon1 lat2 lon2 : ℝ) : ℝ :=
  let R : ℝ := 6371000
  let phi1 := lat1 * Real.pi / 180
  let phi2 := lat2 * Real.pi / 180
  let dphi := (lat2 - lat1) * Real.pi / 180
  let dlambda := (lon2 - lon1) * Real.pi / 180
  let a := Real.sin (dphi / 2) * Real.sin (dphi / 2) +
    Real.cos phi1 * Real.cos phi2 * Real.sin (dlambda / 2) * Real.sin (dlambda / 2)
  let c := 2 * atan2 (Real.sqrt a) (Real.sqrt (1 - a))
  R * c

/-- One raw position fix as delivered by the platform location API.
speed = none models a missing (null/undefined) or NaN speed-over-ground
reading; the callback coerces such a reading to 0 (the JavaScript
expression coords.speed with a fallback of 0 also sends an exact 0 to 0,
which is the identity).  The altitude, accuracy and heading fields are
omitted: the tracking arithmetic never reads them. -/
structure LocationUpdate where
  speed : Option ℝ
  latitude : ℝ
  longitude : ℝ
  timestamp : ℕ

/-- The LocationData record the callback builds from a raw fix
(interface LocationData in the source, restricted to the fields the
tracking arithmetic reads). -/
structure LocationData where
  speed : ℝ
  latitude : ℝ
  longitude : ℝ
  timestamp : ℕ

/-- The coercion performed at the top of the location callback:
currentLocation.speed is the raw speed with null/undefined/NaN coerced
to 0, and the coordinates and timestamp are copied through. -/
def mkLocationData (locationUpdate : LocationUpdate) : LocationData :=
  { speed := locationUpdate.speed.getD 0
    latitude := locationUpdate.latitude
    longitude := locationUpdate.longitude
    timestamp := locationUpdate.timestamp }

/-- The component state of BikeComputerScreen restricted to the tracking
arithmetic: the useState hooks location, isTracking, isPaused, distance,
startTime, pausedTime, pauseStartTime, elapsedTime, maxSpeed, avgSpeed,
lastLocation and speedReadings, plus a subscribed flag recording whether
the watchPositionAsync subscription created by startTracking is live
(locationSubscription.current in the source). -/
structure TrackerState where
  location : Option LocationData
  isTracking : Bool
  isPaused : Bool
  distance : ℝ
  startTime : Option ℕ
  pausedTime : ℕ
  pauseStartTime : Option ℕ
  elapsedTime : ℤ
  maxSpeed : ℝ
  avgSpeed : ℝ
  lastLocation : Option LocationData
  speedReadings : List ℝ
  subscribed : Bool

/-- The initial component state: every useState initial value, with no
live subscription. -/
def initialState : TrackerState :=
  { location := none
    isTracking := false
    isPaused := false
    distance := 0
    startTime := none
    pausedTime := 0
    pauseStartTime := none
    elapsedTime := 0
    maxSpeed := 0
    avgSpeed := 0
    lastLocation := none
    speedReadings := []
    subscribed := false }

/-- The location callback body as a state transformer.  It always records
the fix in location; when not paused it adds the haversine increment from
lastLocation (when one exists), updates the running maximum of the clamped
speed, appends the clamped speed to speedReadings, recomputes avgSpeed as
sum over length of the new readings list, and records the fix as
lastLocation.  Note the guard reads only the paused flag: the callback
performs no isTracking check.  The lastLocation read on the distance path
is taken here from the current state; the closure the program actually
installs reads a captured constant instead, see installedCallback. -/
noncomputable def locationCallback (st : TrackerState)
    (locationUpdate : LocationUpdate) : TrackerState :=
  let currentLocation := mkLocationData locationUpdate
  let st1 := { st with location := some currentLocation }
  if st1.isPaused then st1
  else
    let st2 :=
      match st1.lastLocation with
      | some lastLocation =>
          { st1 with distance := (st1.distance +
              calculateDistance lastLocation.latitude lastLocation.longitude
                currentLocation.latitude currentLocation.longitude) }
      | none => st1
    let currentSpeed := max currentLocation.speed 0
    let st3 := { st2 with maxSpeed := max st2.maxSpeed currentSpeed }
    let newReadings := st3.speedReadings ++ [currentSpeed]
    let st4 := { st3 with
      speedReadings := newReadings
      avgSpeed := newReadings.sum / (newReadings.length : ℝ) }
    { st4 with lastLocation := some currentLocation }

/-- The subscription callback closure as actually installed by
startTracking: identical to locationCallback except that the distance
branch tests the render-scoped `lastLocation` constant captured when the
subscription was registered (the captured parameter) rather than the
current state field.  The paused guard (read through isPausedRef), the
speed statistics (functional prev-updates) and every write are unchanged.
Every reachable registration — startTracking run from the mount effect on
the initial render — captures none. -/
noncomputable def installedCallback (captured : Option LocationData)
    (st : TrackerState) (locationUpdate : LocationUpdate) : TrackerState :=
  let currentLocation := mkLocationData locationUpdate
  let st1 := { st with location := some currentLocation }
  if st1.isPaused then st1
  else
    let st2 :=
      match captured with
      | some lastLocation =>
          { st1 with distance := (st1.distance +
              calculateDistance lastLocation.latitude lastLocation.longitude
                currentLocation.latitude currentLocation.longitude) }
      | none => st1
    let currentSpeed := max currentLocation.speed 0
    let st3 := { st2 with maxSpeed := max st2.maxSpeed currentSpeed }
    let newReadings := st3.speedReadings ++ [currentSpeed]
    let st4 := { st3 with
      speedReadings := newReadings
      avgSpeed := newReadings.sum / (newReadings.length : ℝ) }
    { st4 with lastLocation := some currentLocation }

/-- startTracking (with the foreground permission granted): zeroes the
trip state, stamps startTime with the current time, and installs the
location subscription. -/
def startTracking (now : ℕ) (st : TrackerState) : TrackerState :=
  { st with
    isTracking := true
    isPaused := false
    pausedTime := 0
    pauseStartTime := none
    startTime := some now
    distance := 0
    elapsedTime := 0
    maxSpeed := 0
    avgSpeed := 0
    speedReadings := []
    lastLocation := none
    subscribed := true }

/-- stopTracking: removes the location subscription and clears
isTracking (the timer interval is cleared; no other field is touched). -/
def stopTracking (st : TrackerState) : TrackerState :=
  { st with subscribed := false, isTracking := false }

/-- pauseTracking: unconditionally sets isPaused and stamps
pauseStartTime with the current time.  The source has no guard on the
current state. -/
def pauseTracking (now : ℕ) (st : TrackerState) : TrackerState :=
  { st with isPaused := true, pauseStartTime := some now }

/-- resumeTracking: when a pauseStartTime is recorded, adds the floor of
the ended pause interval in whole seconds to the pausedTime accumulator;
then clears isPaused and pauseStartTime. -/
def resumeTracking (now : ℕ) (st : TrackerState) : TrackerState :=
  let st1 :=
    match st.pauseStartTime with
    | some pauseStart => { st with pausedTime := st.pausedTime + (now - pauseStart) / 1000 }
    | none => st
  { st1 with isPaused := false, pauseStartTime := none }

/-- resetTracking: zeroes the trip state and stamps a fresh startTime;
when the tracker is not currently tracking it then restarts tracking. -/
def resetTracking (now : ℕ) (st : TrackerState) : TrackerState :=
  let st1 := { st with
    isPaused := false
    pausedTime := 0
    pauseStartTime := none
    location := none
    distance := 0
    startTime := some now
    elapsedTime := 0
    maxSpeed := 0
    avgSpeed := 0
    speedReadings := []
    lastLocation := none }
  if st1.isTracking then st1 else startTracking now st1

/-- The once-per-second timer tick.  The effect installs the interval
only while isTracking, not isPaused, and a startTime exists; each tick
recomputes elapsedTime as the floor of the wall-clock seconds since
startTime minus the pausedTime accumulator.  In every other state the
interval is cleared, so elapsedTime is not recomputed. -/
def tick (now : ℕ) (st : TrackerState) : TrackerState :=
  if st.isTracking && !st.isPaused then
    match st.startTime with
    | some startTime =>
        { st with elapsedTime := (((now - startTime) / 1000 : ℕ) : ℤ) - (st.pausedTime : ℤ) }
    | none => st
  else st

/-- The external events that mutate the tracker: a position fix delivered
through the subscription (delivered only while the subscription is live:
stopTracking removes it synchronously), the button handlers, and the
timer tick. -/
inductive Event where
  | sample (locationUpdate : LocationUpdate)
  | pause (now : ℕ)
  | resume (now : ℕ)
  | reset (now : ℕ)
  | start (now : ℕ)
  | stop
  | tick (now : ℕ)

/-- One event applied to the tracker state. -/
noncomputable def step (st : TrackerState) : Event → TrackerState
  | .sample locationUpdate =>
      if st.subscribed then locationCallback st locationUpdate else st
  | .pause now => pauseTracking now st
  | .resume now => resumeTracking now st
  | .reset now => resetTracking now st
  | .start now => startTracking now st
  | .stop => stopTracking st
  | .tick now => tick now st

/-- A finite sequence of events applied in order. -/
noncomputable def run (st : TrackerState) (events : List Event) : TrackerState :=
  events.foldl step st

/-- Specification-side accumulator, following the spec text for the average
speed: the clamped speeds of exactly the samples accepted while Active and
not Paused since the last start/reset. -/
structure SpecAcc where
  active : Bool
  paused : Bool
  speeds : List ℝ

/-- Specification-side transition, following the spec text: a sample
contributes its clamped speed exactly when the tracker is Active and not
Paused; pause and resume toggle the paused flag; start and reset begin a
fresh trip with an empty contribution list; stop leaves Active. -/
def specStep (acc : SpecAcc) : Event → SpecAcc
  | .sample locationUpdate =>
      if acc.active && !acc.paused then
        { acc with speeds := acc.speeds ++ [max (locationUpdate.speed.getD 0) 0] }
      else acc
  | .pause _ => { acc with paused := true }
  | .resume _ => { acc with paused := false }
  | .reset _ => { active := true, paused := false, speeds := [] }
  | .start _ => { active := true, paused := false, speeds := [] }
  | .stop => { acc with active := false }
  | .tick _ => acc

/-- The specification-side accumulator after a finite sequence of events. -/
def specRun (acc : SpecAcc) (events : List Event) : SpecAcc :=
  events.foldl specStep acc

/-- Correspondence between the tracker state and the specification-side
accumulator used to settle the average-speed claim. -/
def C4Inv (st : TrackerState) (acc : SpecAcc) : Prop :=
  st.subscribed = acc.active ∧ st.isTracking = acc.active ∧
  st.isPaused = acc.paused ∧ st.speedReadings = acc.speeds ∧
  st.avgSpeed = (if acc.speeds = [] then 0 else acc.speeds.sum / (acc.speeds.length : ℝ))

/-- Non-negativity invariant of the speed statistics. -/
def C10Inv (st : TrackerState) : Prop :=
  0 ≤ st.maxSpeed ∧ 0 ≤ st.avgSpeed ∧ ∀ x ∈ st.speedReadings, 0 ≤ x

/-- Concrete active state with a recorded last location (input of the
distance-increment witness). -/
def wst1 : TrackerState :=
  { initialState with
    subscribed := true
    isTracking := true
    lastLocation := some ⟨0, 10, 20, 0⟩ }

/-- Concrete position fix (input of the distance-increment witness). -/
def wloc1 : LocationUpdate := ⟨some 3, 11, 21, 1000⟩

/-- Concrete paused state with a recorded last location (input of the
paused-sample counterexample and witness). -/
def pst2 : TrackerState :=
  { initialState with
    subscribed := true
    isTracking := true
    isPaused := true
    lastLocation := some ⟨0, 0, 0, 0⟩ }

/-- Concrete position fix delivered while paused. -/
def ploc2 : LocationUpdate := ⟨some 1, 1, 1, 500⟩

/-- Concrete active state with a start time and accumulated paused time
(input of the elapsed-time witness). -/
def st3a : TrackerState :=
  { initialState with
    subscribed := true
    isTracking := true
    startTime := some 0
    pausedTime := 1 }

/-- Concrete state with an open pause interval (input of the resume
witness). -/
def st3b : TrackerState :=
  { initialState with
    subscribed := true
    isTracking := true
    isPaused := true
    pauseStartTime := some 300 }

/-- Concrete already-paused state (input of the pause counterexample). -/
def stC7 : TrackerState :=
  { initialState with
    subscribed := true
    isTracking := true
    isPaused := true
    pauseStartTime := some 100 }

/-- Concrete freshly started state (input of the stop counterexample and
witness). -/
def stC8 : TrackerState := startTracking 0 initialState

/-- Math.atan2 is non-negative when its first argument is non-negative. -/
theorem atan2_nonneg {y : ℝ} (x : ℝ) (hy : 0 ≤ y) : 0 ≤ atan2 y x :=
  Complex.arg_nonneg_iff.mpr hy

/-- The haversine distance is non-negative on all real inputs. -/
theorem calculateDistance_nonneg (lat1 lon1 lat2 lon2 : ℝ) :
    0 ≤ calculateDistance lat1 lon1 lat2 lon2 := by
  simp only [calculateDistance]
  exact mul_nonneg (by norm_num)
    (mul_nonneg (by norm_num) (atan2_nonneg _ (Real.sqrt_nonneg _)))

/-- The haversine distance between a point and itself is exactly 0. -/
theorem calculateDistance_self (lat lon : ℝ) : calculateDistance lat lon lat lon = 0 := by
  have hone : ((⟨1, 0⟩ : ℂ)) = 1 := by
    apply Complex.ext <;> simp
  simp only [calculateDistance]
  rw [show (lat - lat) * Real.pi / 180 / 2 = 0 by ring,
    show (lon - lon) * Real.pi / 180 / 2 = 0 by ring]
  simp [atan2, hone, Complex.arg_one]

/-- One location callback never decreases the distance accumulator. -/
theorem locationCallback_distance_le (st : TrackerState) (l : LocationUpdate) :
    st.distance ≤ (locationCallback st l).distance := by
  simp only [locationCallback]
  by_cases hp : st.isPaused
  · simp [hp]
  · simp only [hp]
    cases hl : st.lastLocation with
    | none => simp [hl]
    | some last =>
        simp [hl]
        exact calculateDistance_nonneg _ _ _ _

/-- A sequence of location callbacks never decreases the distance
accumulator. -/
theorem foldl_locationCallback_distance_le (ls : List LocationUpdate)
    (st : TrackerState) : st.distance ≤ (ls.foldl locationCallback st).distance := by
  induction ls generalizing st with
  | nil => exact le_refl _
  | cons l ls ih =>
      exact le_trans (locationCallback_distance_le st l) (ih (locationCallback st l))

/-- Along a sequence of samples sharing one coordinate pair, the distance
accumulator stays 0 as long as it starts at 0, the tracker is unpaused, and
the recorded last location (when any) also carries that coordinate pair. -/
theorem distance_zero_inv (lat lon : ℝ) (ls : List LocationUpdate)
    (hls : ∀ l ∈ ls, l.latitude = lat ∧ l.longitude = lon)
    (st : TrackerState) (hd : st.distance = 0) (hp : st.isPaused = false)
    (hl : st.lastLocation = none ∨
      ∃ ld, st.lastLocation = some ld ∧ ld.latitude = lat ∧ ld.longitude = lon) :
    (ls.foldl locationCallback st).distance = 0 := by
  induction ls generalizing st with
  | nil => exact hd
  | cons l ls ih =>
      have hlcoords := hls l (List.mem_cons_self l ls)
      have hls2 : ∀ x ∈ ls, x.latitude = lat ∧ x.longitude = lon :=
        fun x hx => hls x (List.mem_cons_of_mem l hx)
      refine ih hls2 (locationCallback st l) ?_ ?_ ?_
      · rcases hl with hnone | ⟨ld, hsome, hldlat, hldlon⟩
        · simp [locationCallback, hp, hnone, hd]
        · simp [locationCallback, hp, hsome, hd, mkLocationData, hldlat, hldlon,
            hlcoords.1, hlcoords.2, calculateDistance_self]
      · cases hl2 : st.lastLocation <;> simp [locationCallback, hp, hl2]
      · right
        refine ⟨mkLocationData l, ?_, ?_, ?_⟩
        · cases hl2 : st.lastLocation <;> simp [locationCallback, hp, hl2]
        · simp [mkLocationData, hlcoords.1]
        · simp [mkLocationData, hlcoords.2]

/-- The haversine distance the original claim would add between the
concrete fixes (10, 20) and (11, 21) is nonzero. -/
theorem calculateDistance_wst1_ne_zero : calculateDistance 10 20 11 21 ≠ 0 := by
  have hpi := Real.pi_pos
  have hs : 0 < Real.sin (Real.pi / 360) :=
    Real.sin_pos_of_pos_of_lt_pi (by positivity) (by linarith)
  have hc10 : 0 < Real.cos (10 * Real.pi / 180) :=
    Real.cos_pos_of_mem_Ioo ⟨by linarith, by linarith⟩
  have hc11 : 0 < Real.cos (11 * Real.pi / 180) :=
    Real.cos_pos_of_mem_Ioo ⟨by linarith, by linarith⟩
  simp only [calculateDistance]
  rw [show ((11 : ℝ) - 10) * Real.pi / 180 / 2 = Real.pi / 360 by ring,
    show ((21 : ℝ) - 20) * Real.pi / 180 / 2 = Real.pi / 360 by ring]
  have ha : 0 < Real.sin (Real.pi / 360) * Real.sin (Real.pi / 360) +
      Real.cos (10 * Real.pi / 180) * Real.cos (11 * Real.pi / 180) *
      Real.sin (Real.pi / 360) * Real.sin (Real.pi / 360) :=
    add_pos_of_pos_of_nonneg (mul_pos hs hs)
      (mul_nonneg (mul_nonneg (mul_nonneg hc10.le hc11.le) hs.le) hs.le)
  have harg : atan2 (Real.sqrt (Real.sin (Real.pi / 360) * Real.sin (Real.pi / 360) +
      Real.cos (10 * Real.pi / 180) * Real.cos (11 * Real.pi / 180) *
      Real.sin (Real.pi / 360) * Real.sin (Real.pi / 360)))
      (Real.sqrt (1 - (Real.sin (Real.pi / 360) * Real.sin (Real.pi / 360) +
      Real.cos (10 * Real.pi / 180) * Real.cos (11 * Real.pi / 180) *
      Real.sin (Real.pi / 360) * Real.sin (Real.pi / 360)))) ≠ 0 := by
    unfold atan2
    intro h
    rw [Complex.arg_eq_zero_iff] at h
    have him := h.2
    simp only at him
    exact (Real.sqrt_pos.mpr ha).ne him.symm
  exact mul_ne_zero (by norm_num) (mul_ne_zero two_ne_zero harg)

/-- C1 fails on the code (code bug): the `lastLocation` identifier the
installed subscription callback tests on the distance path is a
render-scoped constant captured at registration time, and every reachable
registration captures none, so the distance-increment branch never fires:
the installed callback leaves the distance accumulator unchanged on every
sample — including the exact situation the claim addresses (unpaused, a
prior lastSample recorded in the state), where the claimed haversine
increment is nonzero. -/
theorem claim_C1 :
    (∀ (st : TrackerState) (l : LocationUpdate),
      (installedCallback none st l).distance = st.distance) ∧
    wst1.isPaused = false ∧
    wst1.lastLocation = some ⟨0, 10, 20, 0⟩ ∧
    (installedCallback none wst1 wloc1).distance = wst1.distance ∧
    calculateDistance 10 20 11 21 ≠ 0 := by
  refine ⟨?_, rfl, rfl, ?_, calculateDistance_wst1_ne_zero⟩
  · intro st l
    by_cases hp : st.isPaused <;> simp [installedCallback, hp]
  · simp [installedCallback, wst1, initialState]

/-- C5: the distance accumulator is monotonically non-decreasing over any
sequence of location callbacks, regardless of the coordinates, order or
timestamps of the samples: every single callback, and hence every pair of
consecutive states along a callback sequence, can only keep or grow it. -/
theorem claim_C5 :
    (∀ (st : TrackerState) (l : LocationUpdate),
      st.distance ≤ (locationCallback st l).distance) ∧
    (∀ (st : TrackerState) (ls : List LocationUpdate),
      st.distance ≤ (ls.foldl locationCallback st).distance) :=
  ⟨locationCallback_distance_le, fun st ls => foldl_locationCallback_distance_le ls st⟩

/-- C6: the haversine distance function is symmetric in its two coordinate
points. -/
theorem claim_C6 (lat1 lon1 lat2 lon2 : ℝ) :
    calculateDistance lat1 lon1 lat2 lon2 = calculateDistance lat2 lon2 lat1 lon1 := by
  simp only [calculateDistance]
  have ha : Real.sin ((lat1 - lat2) * Real.pi / 180 / 2) *
        Real.sin ((lat1 - lat2) * Real.pi / 180 / 2) +
        Real.cos (lat2 * Real.pi / 180) * Real.cos (lat1 * Real.pi / 180) *
        Real.sin ((lon1 - lon2) * Real.pi / 180 / 2) *
        Real.sin ((lon1 - lon2) * Real.pi / 180 / 2) =
      Real.sin ((lat2 - lat1) * Real.pi / 180 / 2) *
        Real.sin ((lat2 - lat1) * Real.pi / 180 / 2) +
        Real.cos (lat1 * Real.pi / 180) * Real.cos (lat2 * Real.pi / 180) *
        Real.sin ((lon2 - lon1) * Real.pi / 180 / 2) *
        Real.sin ((lon2 - lon1) * Real.pi / 180 / 2) := by
    rw [show (lat1 - lat2) * Real.pi / 180 / 2 = -((lat2 - lat1) * Real.pi / 180 / 2) by ring,
      show (lon1 - lon2) * Real.pi / 180 / 2 = -((lon2 - lon1) * Real.pi / 180 / 2) by ring,
      Real.sin_neg, Real.sin_neg]
    ring
  rw [ha]

/-- C9: the haversine distance between equal points is exactly 0, and over
any sequence of samples sharing one coordinate pair, starting from a fresh
trip, the distance accumulator stays 0. -/
theorem claim_C9 :
    (∀ lat lon : ℝ, calculateDistance lat lon lat lon = 0) ∧
    (∀ (now : ℕ) (lat lon : ℝ) (ls : List LocationUpdate),
      (∀ l ∈ ls, l.latitude = lat ∧ l.longitude = lon) →
      (ls.foldl locationCallback (startTracking now initialState)).distance = 0) := by
  refine ⟨calculateDistance_self, fun now lat lon ls hls => ?_⟩
  exact distance_zero_inv lat lon ls hls _ rfl rfl (Or.inl rfl)

/-- Concrete instantiation of the identical-coordinates claim: two samples
at latitude 10, longitude 20 leave the distance accumulator at 0. -/
theorem claim_C9_witness :
    calculateDistance 10 20 10 20 = 0 ∧
    (([⟨some 1, 10, 20, 0⟩, ⟨none, 10, 20, 1000⟩] :
        List LocationUpdate).foldl locationCallback
      (startTracking 0 initialState)).distance = 0 := by
  refine ⟨claim_C9.1 10 20, claim_C9.2 0 10 20 _ ?_⟩
  intro l hl
  simp only [List.mem_cons, List.not_mem_nil, or_false] at hl
  rcases hl with rfl | rfl
  · exact ⟨rfl, rfl⟩
  · exact ⟨rfl, rfl⟩

/-- C2 fails on the code: a sample delivered while Paused does not update
lastSample (setLastLocation sits inside the not-paused guard).  Concretely,
in a paused state whose last location is at the origin, a sample at
latitude 1 leaves lastLocation at the origin rather than at the sample. -/
theorem claim_C2_counterexample :
    pst2.isPaused = true ∧
    (step pst2 (.sample ploc2)).lastLocation ≠ some (mkLocationData ploc2) := by
  refine ⟨rfl, ?_⟩
  intro h
  simp [step, pst2, ploc2, locationCallback, mkLocationData, initialState] at h

/-- C2 amended: a sample delivered while Paused changes none of
distanceMeters, maxSpeedMps, avgSpeedMps, the speed-readings list, nor
lastSample; only the displayed current location is updated. -/
theorem claim_C2_amended (st : TrackerState) (l : LocationUpdate)
    (hp : st.isPaused = true) :
    (step st (.sample l)).distance = st.distance ∧
    (step st (.sample l)).maxSpeed = st.maxSpeed ∧
    (step st (.sample l)).avgSpeed = st.avgSpeed ∧
    (step st (.sample l)).speedReadings = st.speedReadings ∧
    (step st (.sample l)).lastLocation = st.lastLocation ∧
    (st.subscribed = true → (step st (.sample l)).location = some (mkLocationData l)) := by
  cases hsub : st.subscribed <;> simp [step, hsub, locationCallback, hp]

/-- Concrete instantiation of the amended paused-sample claim. -/
theorem claim_C2_witness :
    pst2.isPaused = true ∧ pst2.subscribed = true ∧
    (step pst2 (.sample ploc2)).distance = pst2.distance ∧
    (step pst2 (.sample ploc2)).lastLocation = pst2.lastLocation ∧
    (step pst2 (.sample ploc2)).location = some (mkLocationData ploc2) :=
  ⟨rfl, rfl, (claim_C2_amended pst2 ploc2 rfl).1,
    (claim_C2_amended pst2 ploc2 rfl).2.2.2.2.1,
    (claim_C2_amended pst2 ploc2 rfl).2.2.2.2.2 rfl⟩

/-- C3: at a timer tick while tracking and not paused, elapsedSeconds is
the floor of the wall-clock milliseconds since startTime divided by 1000,
minus the pausedTime accumulator; the tick leaves elapsedSeconds unchanged
while Paused or Idle; and resume adds the floor of the ended pause
interval in whole seconds to the pausedTime accumulator. -/
theorem claim_C3 :
    (∀ (st : TrackerState) (now t0 : ℕ), st.isTracking = true → st.isPaused = false →
      st.startTime = some t0 → t0 ≤ now →
      (tick now st).elapsedTime =
        ((⌊((now : ℝ) - (t0 : ℝ)) / 1000⌋₊ : ℕ) : ℤ) - (st.pausedTime : ℤ)) ∧
    (∀ (st : TrackerState) (now : ℕ), st.isPaused = true ∨ st.isTracking = false →
      (tick now st).elapsedTime = st.elapsedTime) ∧
    (∀ (st : TrackerState) (now p : ℕ), st.pauseStartTime = some p → p ≤ now →
      (resumeTracking now st).pausedTime =
        st.pausedTime + ⌊((now : ℝ) - (p : ℝ)) / 1000⌋₊) := by
  refine ⟨?_, ?_, ?_⟩
  · intro st now t0 ht hp hs hle
    have hfl : ⌊((now : ℝ) - (t0 : ℝ)) / 1000⌋₊ = (now - t0) / 1000 := by
      rw [← Nat.cast_sub hle, Nat.floor_div_ofNat, Nat.floor_natCast]
    rw [hfl]
    simp [tick, ht, hp, hs]
  · intro st now h
    rcases h with hp | ht
    · simp [tick, hp]
    · simp [tick, ht]
  · intro st now p hps hle
    have hfl : ⌊((now : ℝ) - (p : ℝ)) / 1000⌋₊ = (now - p) / 1000 := by
      rw [← Nat.cast_sub hle, Nat.floor_div_ofNat, Nat.floor_natCast]
    rw [hfl]
    simp [resumeTracking, hps]

/-- Concrete instantiation of the elapsed-time claim: started at 0 with 1
second of accumulated pause, a tick at 2500 ms shows 1 elapsed second, and
resuming at 2500 ms from a pause opened at 300 ms adds 2 whole seconds. -/
theorem claim_C3_witness :
    st3a.isTracking = true ∧ st3a.isPaused = false ∧ st3a.startTime = some 0 ∧
    (tick 2500 st3a).elapsedTime = 1 ∧
    st3b.isPaused = true ∧
    (tick 2500 st3b).elapsedTime = st3b.elapsedTime ∧
    st3b.pauseStartTime = some 300 ∧
    (resumeTracking 2500 st3b).pausedTime = 2 := by
  refine ⟨rfl, rfl, rfl, ?_, rfl, claim_C3.2.1 st3b 2500 (Or.inl rfl), rfl, ?_⟩
  · have h := claim_C3.1 st3a 2500 0 rfl rfl rfl (by norm_num)
    rw [h]
    norm_num [st3a, initialState]
    rw [Nat.floor_div_ofNat, Nat.floor_ofNat]
    norm_num
  · have h := claim_C3.2.2 st3b 2500 300 rfl (by norm_num)
    rw [h]
    norm_num [st3b, initialState]
    rw [Nat.floor_div_ofNat, Nat.floor_ofNat]

/-- C7 fails on the code: pauseTracking has no guard, so calling it in an
already-paused state overwrites the recorded pause start time (here from
100 ms to 200 ms), changing the state. -/
theorem claim_C7_counterexample :
    stC7.isPaused = true ∧
    (pauseTracking 200 stC7).pauseStartTime ≠ stC7.pauseStartTime := by
  refine ⟨rfl, ?_⟩
  intro h
  simp [pauseTracking, stC7, initialState] at h

/-- C7 amended: pause is not a no-op when already Paused or Idle; from any
state it sets isPaused, overwrites the recorded pause start time with the
current time, and changes no other field, so repeating it at the same
clock instant is idempotent but repeating it later moves the recorded
pause start. -/
theorem claim_C7_amended (now : ℕ) (st : TrackerState) :
    pauseTracking now (pauseTracking now st) = pauseTracking now st ∧
    (pauseTracking now st).isPaused = true ∧
    (pauseTracking now st).pauseStartTime = some now ∧
    (pauseTracking now st).location = st.location ∧
    (pauseTracking now st).isTracking = st.isTracking ∧
    (pauseTracking now st).distance = st.distance ∧
    (pauseTracking now st).startTime = st.startTime ∧
    (pauseTracking now st).pausedTime = st.pausedTime ∧
    (pauseTracking now st).elapsedTime = st.elapsedTime ∧
    (pauseTracking now st).maxSpeed = st.maxSpeed ∧
    (pauseTracking now st).avgSpeed = st.avgSpeed ∧
    (pauseTracking now st).lastLocation = st.lastLocation ∧
    (pauseTracking now st).speedReadings = st.speedReadings ∧
    (pauseTracking now st).subscribed = st.subscribed :=
  ⟨rfl, rfl, rfl, rfl, rfl, rfl, rfl, rfl, rfl, rfl, rfl, rfl, rfl, rfl⟩

/-- C8 fails on the code: the location callback checks only the paused
flag, so a sample processed after stopTracking (isTracking already false)
still appends to the speed-readings list instead of being ignored. -/
theorem claim_C8_counterexample :
    (stopTracking stC8).isTracking = false ∧
    (locationCallback (stopTracking stC8) ⟨some 5, 0, 0, 1000⟩).speedReadings ≠
      (stopTracking stC8).speedReadings := by
  refine ⟨rfl, ?_⟩
  intro h
  simp [locationCallback, stopTracking, stC8, startTracking, initialState,
    mkLocationData] at h

/-- C8 amended: a sample processed after stop is filtered only by the
paused flag; when the tracker was not paused at stop time, the callback
still updates the speed statistics (and lastSample), performing no
Idle/isTracking check. -/
theorem claim_C8_amended (st : TrackerState) (l : LocationUpdate)
    (hp : st.isPaused = false) :
    (locationCallback (stopTracking st) l).maxSpeed =
      max st.maxSpeed (max (l.speed.getD 0) 0) ∧
    (locationCallback (stopTracking st) l).speedReadings =
      st.speedReadings ++ [max (l.speed.getD 0) 0] := by
  cases hl : st.lastLocation <;>
    simp [locationCallback, stopTracking, hp, hl, mkLocationData]

/-- Concrete instantiation of the amended post-stop claim. -/
theorem claim_C8_witness :
    stC8.isPaused = false ∧
    (locationCallback (stopTracking stC8) ⟨some 5, 0, 0, 1000⟩).speedReadings =
      stC8.speedReadings ++ [max (5 : ℝ) 0] :=
  ⟨rfl, (claim_C8_amended stC8 ⟨some 5, 0, 0, 1000⟩ rfl).2⟩

/-- The timer tick changes at most elapsedTime. -/
theorem tick_proj (now : ℕ) (st : TrackerState) :
    (tick now st).subscribed = st.subscribed ∧
    (tick now st).isTracking = st.isTracking ∧
    (tick now st).isPaused = st.isPaused ∧
    (tick now st).speedReadings = st.speedReadings ∧
    (tick now st).avgSpeed = st.avgSpeed ∧
    (tick now st).maxSpeed = st.maxSpeed ∧
    (tick now st).distance = st.distance := by
  unfold tick
  cases hg : (st.isTracking && !st.isPaused)
  · simp
  · cases hs : st.startTime <;> simp

/-- The freshly started tracker corresponds to the freshly started
specification accumulator. -/
theorem C4Inv_init (now : ℕ) : C4Inv (startTracking now initialState) ⟨true, false, []⟩ := by
  refine ⟨rfl, rfl, rfl, rfl, ?_⟩
  simp [startTracking, initialState]

/-- One event preserves the correspondence between the tracker and the
specification-side accumulator. -/
theorem C4Inv_step (st : TrackerState) (acc : SpecAcc) (e : Event)
    (h : C4Inv st acc) : C4Inv (step st e) (specStep acc e) := by
  obtain ⟨a, p, sp⟩ := acc
  obtain ⟨h1, h2, h3, h4, h5⟩ := h
  simp only at h1 h2 h3 h4 h5
  subst h1
  subst h3
  subst h4
  cases e with
  | sample l =>
      cases hsub : st.subscribed <;> cases hp : st.isPaused <;>
        cases hl : st.lastLocation <;>
        refine ⟨?_, ?_, ?_, ?_, ?_⟩ <;>
          simp [step, specStep, locationCallback, hsub, hp, hl, h2, h5, mkLocationData]
  | pause now => exact ⟨rfl, h2, rfl, rfl, h5⟩
  | resume now =>
      cases hps : st.pauseStartTime <;>
        refine ⟨?_, ?_, ?_, ?_, ?_⟩ <;> simp [resumeTracking, specStep, step, hps, h2, h5]
  | reset now =>
      cases hT : st.isTracking
      · refine ⟨?_, ?_, ?_, ?_, ?_⟩ <;>
          simp [step, specStep, resetTracking, startTracking, hT]
      · have hsub : st.subscribed = true := by rw [← h2, hT]
        refine ⟨?_, ?_, ?_, ?_, ?_⟩ <;>
          simp [step, specStep, resetTracking, startTracking, hT, hsub]
  | start now => exact ⟨rfl, rfl, rfl, rfl, by simp [step, specStep, startTracking]⟩
  | stop => exact ⟨rfl, rfl, rfl, rfl, h5⟩
  | tick now =>
      have hp := tick_proj now st
      exact ⟨hp.1, hp.2.1.trans h2, hp.2.2.1, hp.2.2.2.1, hp.2.2.2.2.1.trans h5⟩

/-- A sequence of events preserves the correspondence. -/
theorem C4Inv_run (events : List Event) (st : TrackerState) (acc : SpecAcc)
    (h : C4Inv st acc) : C4Inv (run st events) (specRun acc events) := by
  induction events generalizing st acc with
  | nil => exact h
  | cons e es ih => exact ih (step st e) (specStep acc e) (C4Inv_step st acc e h)

/-- C4: after any finite event sequence from a fresh start, the
speed-readings list is exactly the clamped speeds of the samples accepted
while Active and not Paused since the last start/reset, and avgSpeed is
their arithmetic mean, with value 0 when that sample set is empty. -/
theorem claim_C4 (now : ℕ) (events : List Event) :
    (run (startTracking now initialState) events).speedReadings =
      (specRun ⟨true, false, []⟩ events).speeds ∧
    (run (startTracking now initialState) events).avgSpeed =
      (if (specRun ⟨true, false, []⟩ events).speeds = [] then 0
       else (specRun ⟨true, false, []⟩ events).speeds.sum /
         ((specRun ⟨true, false, []⟩ events).speeds.length : ℝ)) := by
  have h := C4Inv_run events (startTracking now initialState) ⟨true, false, []⟩ (C4Inv_init now)
  exact ⟨h.2.2.2.1, h.2.2.2.2⟩

/-- The initial state satisfies the non-negativity invariant. -/
theorem C10Inv_init : C10Inv initialState := by
  refine ⟨le_refl 0, le_refl 0, ?_⟩
  simp [initialState]

/-- One event preserves the non-negativity invariant of the speed
statistics. -/
theorem C10Inv_step (st : TrackerState) (e : Event) (h : C10Inv st) :
    C10Inv (step st e) := by
  obtain ⟨h1, h2, h3⟩ := h
  cases e with
  | sample l =>
      cases hsub : st.subscribed with
      | false =>
          refine ⟨?_, ?_, ?_⟩ <;> simp only [step, hsub] <;>
            first
            | exact h1
            | exact h2
            | exact h3
      | true =>
          cases hp : st.isPaused with
          | true =>
              refine ⟨?_, ?_, ?_⟩ <;>
                simp [step, hsub, locationCallback, hp] <;>
                first
                | exact h1
                | exact h2
                | exact h3
          | false =>
              have hcs : (0 : ℝ) ≤ max ((mkLocationData l).speed) 0 := le_max_right _ _
              have hmem : ∀ x ∈ st.speedReadings ++ [max ((mkLocationData l).speed) 0],
                  (0 : ℝ) ≤ x := by
                intro x hx
                rcases List.mem_append.mp hx with hx | hx
                · exact h3 x hx
                · simp only [List.mem_singleton] at hx
                  exact hx ▸ hcs
              have hsum : (0 : ℝ) ≤ (st.speedReadings ++ [max ((mkLocationData l).speed) 0]).sum :=
                List.sum_nonneg hmem
              cases hl : st.lastLocation <;>
                refine ⟨?_, ?_, ?_⟩ <;>
                  simp only [step, hsub, locationCallback, hp, hl, Bool.false_eq_true,
                    if_false, if_true, ite_true, ite_false]
              all_goals
                simp_all [mkLocationData]
              all_goals
                exact div_nonneg hsum (by positivity)
  | pause now => exact ⟨h1, h2, h3⟩
  | resume now =>
      cases hps : st.pauseStartTime <;>
        refine ⟨?_, ?_, ?_⟩ <;> simp [step, resumeTracking, hps] <;>
          first
          | exact h1
          | exact h2
          | exact h3
  | reset now =>
      cases hT : st.isTracking <;>
        refine ⟨?_, ?_, ?_⟩ <;>
          simp [step, resetTracking, startTracking, hT]
  | start now =>
      refine ⟨?_, ?_, ?_⟩ <;> simp [step, startTracking]
  | stop => exact ⟨h1, h2, h3⟩
  | tick now =>
      have hp := tick_proj now st
      refine ⟨?_, ?_, ?_⟩ <;> simp only [step]
      · rw [hp.2.2.2.2.2.1]
        exact h1
      · rw [hp.2.2.2.2.1]
        exact h2
      · rw [hp.2.2.2.1]
        exact h3

/-- A sequence of events preserves the non-negativity invariant. -/
theorem C10Inv_run (events : List Event) (st : TrackerState) (h : C10Inv st) :
    C10Inv (run st events) := by
  induction events generalizing st with
  | nil => exact h
  | cons e es ih => exact ih (step st e) (C10Inv_step st e h)

/-- C10: after every finite sequence of operations, maxSpeedMps and
avgSpeedMps are non-negative, whatever the raw speed of each sample
(negative, zero, or missing, the latter standing for a null/undefined/NaN
reading coerced to 0 before clamping). -/
theorem claim_C10 (events : List Event) :
    0 ≤ (run initialState events).maxSpeed ∧ 0 ≤ (run initialState events).avgSpeed := by
  have h := C10Inv_run events initialState C10Inv_init
  exact ⟨h.1, h.2.1⟩

end XTracker
